import Mathlib

/-!
Shallow embedding of `src/main.py` (a Solana transaction replay script) and
proofs about its control flow: the retrying blockhash fetch, the one-byte
template mutation, the confirmation-polling loop, the per-wallet replay loop
and the dataset-loading main flow.  External effects (RPC responses, the
base64/deserialize step done by the solana library, the random draws, the
thread pool) are supplied as explicit oracle inputs, so every function here
is a pure, executable translation of the corresponding Python code.
-/

namespace Niuniu

/-- Opaque blockhash token returned by the RPC node. -/
abbrev Blockhash := String

/-- Opaque transaction signature identifier returned on submission. -/
abbrev SignatureId := String

/-- One compiled instruction of the decoded transaction, as it appears in the
JSON form produced by line 45 of `src/main.py` (`data` is a list of byte
values). -/
structure Instruction where
  programIdIndex : Nat
  accounts : List Nat
  data : List Nat
deriving DecidableEq, Repr

/-- Header of the decoded message. -/
structure MessageHeader where
  numRequiredSignatures : Nat
  numReadonlySignedAccounts : Nat
  numReadonlyUnsignedAccounts : Nat
deriving DecidableEq, Repr

/-- The decoded message: account keys, recent blockhash and instruction list. -/
structure Message where
  header : MessageHeader
  accountKeys : List String
  recentBlockhash : String
  instructions : List Instruction
deriving DecidableEq, Repr

/-- The decoded transaction (`tx` in `send_modified_transaction`). -/
structure Tx where
  signatures : List String
  message : Message
deriving DecidableEq, Repr

/-- Error raised by the mutation block (lines 51-57): any failure inside the
`try` is re-raised as ValueError, the spec's `MalformedTemplate`. -/
inductive MutateError
  | malformedTemplate
deriving DecidableEq, Repr

/-- Lines 52-53 of `src/main.py` with the random draw made explicit:
`tx['message']['instructions'][1]['data'][-1] = random_number`.
Python raises IndexError when instruction index 1 does not exist or when the
data list is empty (assignment to index -1 of an empty list), both caught by
the surrounding `except` and re-raised as the malformed-template ValueError;
on a nonempty list, assignment to index -1 replaces the last element. -/
def mutateTx (tx : Tx) (randomNumber : Nat) : Except MutateError Tx :=
  match tx.message.instructions[1]? with
  | none => .error .malformedTemplate
  | some ins =>
    if ins.data.isEmpty then .error .malformedTemplate
    else
      .ok { tx with message := { tx.message with
              instructions := tx.message.instructions.set 1
                { ins with data := ins.data.dropLast ++ [randomNumber] } } }

/-- Metadata of a confirmed transaction as reported by `get_transaction`. -/
structure TxMeta where
  err : Option String
deriving DecidableEq, Repr

/-- The `res.value.transaction` object: metadata may be absent. -/
structure TxData where
  meta : Option TxMeta
deriving DecidableEq, Repr

/-- One scripted outcome of `client.get_transaction`: either the call raised
(line 104) or it returned a value that may be absent (line 84). -/
inductive RpcStatusResult
  | exn
  | ok (value : Option TxData)
deriving DecidableEq, Repr

/-- Lines 72-106 of `src/main.py`: `check_transaction_status`.  Returns true
only when transaction data is present, metadata is present and the metadata
carries no error; every other case (not found, metadata missing, metadata
with an error, query exception) returns false. -/
def check_transaction_status (res : RpcStatusResult) : Bool :=
  match res with
  | .exn => false
  | .ok none => false
  | .ok (some td) =>
    match td.meta with
    | none => false
    | some m =>
      match m.err with
      | none => true
      | some _ => false

/-- Fixed inter-attempt delay of the blockhash fetch (line 22, `delay=0.5`). -/
def blockhashRetryDelay : ℚ := 1 / 2

/-- Fixed retry ceiling of the blockhash fetch (line 22, `retries=5`). -/
def blockhashRetryCeiling : Nat := 5

/-- Recursive body of `get_latest_blockhash_with_retry` (lines 22-33):
`attempt` is the 1-based attempt number, the second argument the number of
attempts still allowed.  `script a` is the scripted outcome of the RPC call
on attempt `a` (`none` = the call raised).  Returns the fetched blockhash (or
`none` on exhaustion), the number of attempts made and the number of
`blockhashRetryDelay` sleeps performed between attempts. -/
def fetchAux (script : Nat → Option Blockhash) (attempt : Nat) :
    Nat → Option Blockhash × Nat × Nat
  | 0 => (none, 0, 0)
  | remaining + 1 =>
    match script attempt with
    | some h => (some h, 1, 0)
    | none =>
      if remaining = 0 then (none, 1, 0)
      else
        let r := fetchAux script (attempt + 1) remaining
        (r.1, r.2.1 + 1, r.2.2 + 1)

/-- Lines 22-35 of `src/main.py`: attempts the RPC call up to 5 times,
sleeping `blockhashRetryDelay` between consecutive attempts (no sleep after
the final failure), returning immediately on the first success. -/
def get_latest_blockhash_with_retry (script : Nat → Option Blockhash) :
    Option Blockhash × Nat × Nat :=
  fetchAux script 1 blockhashRetryCeiling

/-- Errors that `send_modified_transaction` can raise, one per `raise` site:
line 37 (blockhash exhaustion), line 48 (deserialization), line 57
(mutation / malformed template), line 69 (broadcast). -/
inductive SendError
  | blockhashUnavailable
  | deserializeError
  | malformedTemplate
  | broadcastError
deriving DecidableEq, Repr

/-- Oracle inputs consumed by one call of `send_modified_transaction`: the
scripted RPC blockhash responses, the result of deserializing the base64
template (done by the external solana library; `none` = it raised), the
`random.randint(0, 255)` draw, and the scripted result of
`send_raw_transaction` (`none` = it raised). -/
structure SendEnv where
  blockhashAt : Nat → Option Blockhash
  decoded : Option Tx
  randomNumber : Nat
  sendRaw : Option SignatureId

/-- The local variables of one `send_modified_transaction` call that hold
caller-visible data: the base64 template string, the private key list, and
the working decoded copy `tx` (fresh per call, absent before decoding).
The Python code only ever assigns to `tx`; the template and key are never
written. -/
structure CallStore where
  base64_data : String
  private_key : List Nat
  tx : Option Tx
deriving DecidableEq, Repr

/-- Lines 10-69 of `src/main.py`: fetch a fresh blockhash with retry (abort
with RuntimeError when exhausted), decode the template into a fresh working
copy, overwrite the last data byte of instruction 1, bind the new blockhash,
sign and broadcast.  Returns the raised error or the signature, the final
state of the call's variables, and the blockhash fetch trace (attempts,
delays). -/
def send_modified_transaction (env : SendEnv) (s : CallStore) :
    Except SendError SignatureId × CallStore × Nat × Nat :=
  let fetched := get_latest_blockhash_with_retry env.blockhashAt
  match fetched.1 with
  | none => (.error .blockhashUnavailable, s, fetched.2)
  | some bh =>
    match env.decoded with
    | none => (.error .deserializeError, s, fetched.2)
    | some tx0 =>
      let s1 := { s with tx := some tx0 }
      match mutateTx tx0 env.randomNumber with
      | .error _ => (.error .malformedTemplate, s1, fetched.2)
      | .ok tx1 =>
        let s2 := { s1 with
          tx := some { tx1 with message := { tx1.message with recentBlockhash := bh } } }
        match env.sendRaw with
        | none => (.error .broadcastError, s2, fetched.2)
        | some sig => (.ok sig, s2, fetched.2)

/-- Fixed delay slept before re-querying an unconfirmed submission
(line 154, `time.sleep(5)`). -/
def confirmRetryDelay : ℚ := 5

/-- CPython's `random.uniform(a, b)`: `a + (b - a) * random()`, where `u` is
the underlying `random()` draw (line 148 uses `random.uniform(2, 5)`). -/
def uniform (a b u : ℚ) : ℚ := a + (b - a) * u

/-- The `while True` confirmation-polling loop of `process_wallet`
(lines 145-154), run for at most `fuel` status queries.  `script q` is the
scripted `get_transaction` outcome of the 0-based query `q`.  Returns
`some d` when some query within the budget returned true, where `d` is the
number of false queries before it — each of which caused one
`confirmRetryDelay` sleep — and `none` when no query within `fuel` returned
true (the real loop would still be running). -/
def pollAux (script : Nat → RpcStatusResult) : Nat → Nat → Option Nat
  | 0, _ => none
  | fuel + 1, q =>
    if check_transaction_status (script q) then some q
    else pollAux script fuel (q + 1)

/-- The polling loop started at query 0. -/
def pollLoop (script : Nat → RpcStatusResult) (fuel : Nat) : Option Nat :=
  pollAux script fuel 0

/-- Oracle inputs of one iteration of the replay loop: the inputs of its
`send_modified_transaction` call, the scripted status responses of its
polling loop, and the `random()` draw behind the `random.uniform(2, 5)`
jitter. -/
structure IterEnv where
  send : SendEnv
  status : Nat → RpcStatusResult
  jitterU : ℚ

/-- Observable outcome of one iteration of the replay loop: either the
iteration's exception was caught and logged (lines 156-157), or the
submission confirmed after `delays` retry sleeps and the iteration slept
`jitter` before finishing (lines 145-154). -/
inductive IterOutcome
  | errorLogged (e : SendError)
  | confirmed (delays : Nat) (jitter : ℚ)
deriving DecidableEq, Repr

/-- One iteration of the `for` loop of `process_wallet` (lines 138-157):
submit via `send_modified_transaction`; a raised error is caught and logged;
on success, poll until confirmed then sleep the jitter.  Returns `none` when
the polling loop exceeds its query budget, modelling an iteration that never
finishes. -/
def iterStep (data : String) (key : List Nat) (ie : IterEnv) (fuel : Nat) :
    Option IterOutcome :=
  match (send_modified_transaction ie.send ⟨data, key, none⟩).1 with
  | .error e => some (.errorLogged e)
  | .ok _ =>
    match pollLoop ie.status fuel with
    | none => none
    | some d => some (.confirmed d (uniform 2 5 ie.jitterU))

/-- Iterations `0 .. n-1` of the replay loop, in order; `env i` supplies
iteration `i`'s oracle inputs.  Returns the list of iteration outcomes, or
`none` as soon as some iteration never finishes (later iterations then never
run). -/
def runIters (data : String) (key : List Nat) (env : Nat → IterEnv)
    (fuel : Nat) : Nat → Option (List IterOutcome)
  | 0 => some []
  | n + 1 => do
    let prev ← runIters data key env fuel n
    let o ← iterStep data key (env n) fuel
    pure (prev ++ [o])

/-- Lines 129-157 of `src/main.py`: `process_wallet` runs
`for iteration in range(repeat_count)`; Python's `range` is empty for a
non-positive argument, which `Int.toNat` captures. -/
def process_wallet (data : String) (key : List Nat) (env : Nat → IterEnv)
    (fuel : Nat) (repeat_count : Int) : Option (List IterOutcome) :=
  runIters data key env fuel repeat_count.toNat

/-- One account task parsed from a CSV row (lines 120-123). -/
structure AccountTask where
  private_key : List Nat
  data : String
  repeat_count : Int
deriving DecidableEq, Repr

/-- One raw CSV row as seen by the parsing loop of `read_data_from_csv`:
the external parsers (`ast.literal_eval`, `int`) either yield the row's
fields or raise, in which case the row is malformed. -/
inductive RawRow
  | ok (t : AccountTask)
  | malformed
deriving DecidableEq, Repr

/-- The fatal dataset error: any exception inside `read_data_from_csv` is
re-raised as RuntimeError (lines 125-126). -/
inductive DatasetLoadError
  | datasetLoadError
deriving DecidableEq, Repr

/-- Lines 109-126 of `src/main.py`: rows are parsed in order inside one
`try`; the first malformed row raises out of the whole function, so no list
is returned at all in that case. -/
def read_data_from_csv : List RawRow → Except DatasetLoadError (List AccountTask)
  | [] => .ok []
  | .malformed :: _ => .error .datasetLoadError
  | .ok t :: rest => (read_data_from_csv rest).map (t :: ·)

/-- Outcome of the `__main__` block: either `exit(1)` because the dataset
failed to load (lines 166-170), or the per-wallet results after every
submitted future finished (lines 173-185). -/
inductive MainOutcome
  | exitCode (code : Nat)
  | ranAll (results : List (Option (List IterOutcome)))

/-- Submits the replay loops of the tasks in order, the first task getting
worker index `i`; `envs j` supplies the oracle inputs of the worker of task
index `j`.  Each task's result depends only on that task and its own
oracles — the workers share no state. -/
def runTasksFrom (envs : Nat → Nat → IterEnv) (fuel : Nat) :
    Nat → List AccountTask → List (Option (List IterOutcome))
  | _, [] => []
  | i, t :: rest =>
    process_wallet t.data t.private_key (envs i) fuel t.repeat_count ::
      runTasksFrom envs fuel (i + 1) rest

/-- Runs every account task's replay loop (one worker per task, joined at
the end): the list of per-task results, in task order. -/
def runAllTasks (tasks : List AccountTask) (envs : Nat → Nat → IterEnv)
    (fuel : Nat) : List (Option (List IterOutcome)) :=
  runTasksFrom envs fuel 0 tasks

/-- Lines 161-185 of `src/main.py`: load the dataset (exit(1) on failure
before any scheduling), then submit one `process_wallet` task per row and
wait for all futures. -/
def main_flow (rows : List RawRow) (envs : Nat → Nat → IterEnv)
    (fuel : Nat) : MainOutcome :=
  match read_data_from_csv rows with
  | .error _ => .exitCode 1
  | .ok tasks => .ranAll (runAllTasks tasks envs fuel)

/-- CPython's documented default worker count of `ThreadPoolExecutor()`
when `max_workers` is omitted, as on line 173: `min(32, os.cpu_count() + 4)`. -/
def defaultMaxWorkers (cpuCount : Nat) : Nat := min 32 (cpuCount + 4)

/-- Number of account tasks that can run concurrently under the pool of
line 173: the pool never runs more threads than its worker ceiling, and
never more than there are tasks. -/
def concurrentWorkers (numTasks cpuCount : Nat) : Nat :=
  min (defaultMaxWorkers cpuCount) numTasks

/-! Concrete fixtures used by witnesses and counterexamples. -/

/-- A first instruction (index 0), never touched by the mutation. -/
def insA0 : Instruction := ⟨2, [0, 1], [10, 20]⟩

/-- The designated instruction at index 1 with two data bytes. -/
def insA1 : Instruction := ⟨3, [1], [3, 7]⟩

/-- A well-formed template decode: two instructions, nonempty data on
instruction 1. -/
def txA : Tx :=
  ⟨["sigA"], ⟨⟨1, 0, 1⟩, ["keyA", "keyB"], "oldBlockhash", [insA0, insA1]⟩⟩

/-- A well-formed template whose instruction-1 data is the single byte 7;
drawing the random value 7 reproduces the original decode byte for byte. -/
def txB : Tx :=
  ⟨["sigB"], ⟨⟨1, 0, 1⟩, ["keyA", "keyB"], "oldBlockhash", [insA0, ⟨3, [1], [7]⟩]⟩⟩

/-- A malformed template decode: only one instruction. -/
def txC : Tx := ⟨["sigC"], ⟨⟨1, 0, 1⟩, ["keyA"], "oldBlockhash", [insA0]⟩⟩

/-- A send environment whose RPC calls all succeed on the first try. -/
def sendOkEnv : SendEnv := ⟨fun _ => some "BH", some txA, 9, some "SIG"⟩

/-- A send environment whose blockhash query raises on every attempt. -/
def sendFailEnv : SendEnv := ⟨fun _ => none, some txA, 9, some "SIG"⟩

/-- A status response carrying metadata with an error field. -/
def failedStatus : RpcStatusResult := .ok (some ⟨some ⟨some "custom program error"⟩⟩)

/-- A status response carrying metadata with no error field. -/
def successStatus : RpcStatusResult := .ok (some ⟨some ⟨none⟩⟩)

/-- The scripted status sequence [NotFound, NotFound, metadata-with-no-error]
(every later query also succeeds). -/
def scriptNNS : Nat → RpcStatusResult :=
  fun q => if q < 2 then .ok none else successStatus

/-- An iteration whose submission and first status query both succeed. -/
def iterOkEnv : IterEnv := ⟨sendOkEnv, fun _ => successStatus, 1 / 2⟩

/-- An iteration whose submission raises (blockhash exhaustion). -/
def iterFailSendEnv : IterEnv := ⟨sendFailEnv, fun _ => successStatus, 1 / 2⟩

/-- An iteration whose submission succeeds but whose every status query
reports metadata with an error field. -/
def iterStuckEnv : IterEnv := ⟨sendOkEnv, fun _ => failedStatus, 1 / 2⟩

/-- A sample parsed account task. -/
def taskA : AccountTask := ⟨[1, 2, 3], "dGVtcGxhdGU=", 2⟩

/-! Helper lemmas shared by the claim theorems. -/

/-- When every RPC attempt raises, the fetch body makes exactly the allowed
number of attempts and sleeps between consecutive attempts only. -/
theorem fetchAux_all_fail (script : Nat → Option Blockhash)
    (hf : ∀ i, script i = none) :
    ∀ rem, 1 ≤ rem → ∀ attempt, fetchAux script attempt rem = (none, rem, rem - 1) := by
  intro rem
  induction rem with
  | zero => intro h; omega
  | succ r ih =>
    intro _ attempt
    rcases Nat.eq_zero_or_pos r with hr | hr
    · subst hr; simp [fetchAux, hf]
    · have hrec := ih hr (attempt + 1)
      have hne : ¬r = 0 := by omega
      have h1 : r - 1 + 1 = r := by omega
      simp only [fetchAux, hf, hne, if_false, hrec, h1, Nat.add_sub_cancel]

/-- When attempt `K` is the first to succeed, the fetch body returns that
blockhash after `K - attempt + 1` attempts and `K - attempt` sleeps. -/
theorem fetchAux_success (script : Nat → Option Blockhash) (h : Blockhash) :
    ∀ rem attempt K, attempt ≤ K → K < attempt + rem →
      (∀ j, attempt ≤ j → j < K → script j = none) → script K = some h →
      fetchAux script attempt rem = (some h, K - attempt + 1, K - attempt) := by
  intro rem
  induction rem with
  | zero => intro attempt K h1 h2 _ _; omega
  | succ r ih =>
    intro attempt K h1 h2 hpre hK
    rcases Nat.eq_or_lt_of_le h1 with heq | hlt
    · subst heq
      simp [fetchAux, hK]
    · have hnone : script attempt = none := hpre attempt le_rfl hlt
      have hrne : ¬r = 0 := by omega
      have hrec := ih (attempt + 1) K hlt (by omega)
        (fun j hj1 hj2 => hpre j (by omega) hj2) hK
      simp only [fetchAux, hnone, hrne, if_false, hrec, Prod.mk.injEq]
      exact ⟨trivial, by omega, by omega⟩

/-- A polling loop whose every query reports unconfirmed never terminates,
whatever its query budget. -/
theorem pollAux_none_of_false (script : Nat → RpcStatusResult)
    (hf : ∀ q, check_transaction_status (script q) = false) :
    ∀ fuel q, pollAux script fuel q = none := by
  intro fuel
  induction fuel with
  | zero => intro q; rfl
  | succ f ih => intro q; simp [pollAux, hf, ih]

/-- A false query costs one retry step. -/
theorem pollAux_false_step (script : Nat → RpcStatusResult) (f q : Nat)
    (h : check_transaction_status (script q) = false) :
    pollAux script (f + 1) q = pollAux script f (q + 1) := by
  simp [pollAux, h]

/-- A true query terminates the loop at the current query index. -/
theorem pollAux_true_step (script : Nat → RpcStatusResult) (f q : Nat)
    (h : check_transaction_status (script q) = true) :
    pollAux script (f + 1) q = some q := by
  simp [pollAux, h]

/-- When every iteration terminates, the replay loop produces one outcome
per iteration, in order. -/
theorem runIters_sound (dat : String) (key : List Nat) (env : Nat → IterEnv)
    (fuel : Nat) :
    ∀ n, (∀ i, i < n → iterStep dat key (env i) fuel ≠ none) →
      ∃ l, runIters dat key env fuel n = some l ∧ l.length = n ∧
        ∀ i, i < n → l[i]? = iterStep dat key (env i) fuel := by
  intro n
  induction n with
  | zero => intro _; exact ⟨[], rfl, rfl, by omega⟩
  | succ m ih =>
    intro hterm
    obtain ⟨l, hl, hlen, hget⟩ := ih (fun i hi => hterm i (by omega))
    obtain ⟨o, ho⟩ := Option.ne_none_iff_exists.mp (hterm m (by omega))
    refine ⟨l ++ [o], ?_, ?_, ?_⟩
    · simp [runIters, hl, ← ho]
    · simp [hlen]
    · intro i hi
      rcases Nat.lt_or_ge i m with him | him
      · rw [List.getElem?_append, if_pos (show i < l.length by omega)]
        exact hget i him
      · have hieq : i = m := by omega
        subst hieq
        have hcat : (l ++ [o])[i]? = some o := by
          have hc := List.getElem?_concat_length l o
          rwa [hlen] at hc
        rw [hcat]
        exact ho

/-- Each spawned task's result is its own wallet run, independent of the
other tasks. -/
theorem runTasksFrom_get (envs : Nat → Nat → IterEnv) (fuel : Nat) :
    ∀ (tasks : List AccountTask) (i j : Nat) (t : AccountTask),
      tasks[j]? = some t →
      (runTasksFrom envs fuel i tasks)[j]? =
        some (process_wallet t.data t.private_key (envs (i + j)) fuel
          t.repeat_count) := by
  intro tasks
  induction tasks with
  | nil => intro i j t h; simp at h
  | cons hd tl ih =>
    intro i j t h
    cases j with
    | zero =>
      simp only [List.getElem?_cons_zero, Option.some.injEq] at h
      subst h
      simp [runTasksFrom]
    | succ k =>
      simp only [List.getElem?_cons_succ] at h
      have hrec := ih (i + 1) k t h
      have harith : i + 1 + k = i + (k + 1) := by omega
      rw [harith] at hrec
      simpa [runTasksFrom] using hrec

/-- The scheduler returns one result per task. -/
theorem runTasksFrom_length (envs : Nat → Nat → IterEnv) (fuel : Nat) :
    ∀ (tasks : List AccountTask) (i : Nat),
      (runTasksFrom envs fuel i tasks).length = tasks.length := by
  intro tasks
  induction tasks with
  | nil => intro i; rfl
  | cons hd tl ih => intro i; simp [runTasksFrom, ih]

/-- A malformed row anywhere makes the whole load raise. -/
theorem read_csv_error_of_malformed :
    ∀ rows : List RawRow, RawRow.malformed ∈ rows →
      read_data_from_csv rows = .error .datasetLoadError := by
  intro rows
  induction rows with
  | nil => intro h; simp at h
  | cons hd tl ih =>
    intro h
    cases hd with
    | malformed => rfl
    | ok t =>
      rcases List.mem_cons.mp h with h1 | h2
      · exact absurd h1 (by simp)
      · simp [read_data_from_csv, ih h2, Except.map]

/-! Claim theorems. -/

/-- C1 (counterexample): the claim predicts that after a status query
returns metadata with an error field the replay loop advances to the next
repetition.  On the code, `check_transaction_status` returns false for that
query, and `process_wallet` treats false as not-yet-confirmed: with every
query of a 2-repetition run reporting the error, the run is still inside
repetition 1's polling loop after 100 status queries — it never advances. -/
theorem c1_failed_status_never_advances :
    check_transaction_status failedStatus = false ∧
    process_wallet "dGVtcGxhdGU=" [1, 2, 3] (fun _ => iterStuckEnv) 100 2 = none := by
  have hc : ∀ q : Nat,
      check_transaction_status ((fun _ : Nat => failedStatus) q) = false :=
    fun _ => rfl
  have hp := pollAux_none_of_false _ hc 100 0
  have hs : (send_modified_transaction sendOkEnv
      ⟨"dGVtcGxhdGU=", [1, 2, 3], none⟩).1 = .ok "SIG" := rfl
  refine ⟨rfl, ?_⟩
  simp [process_wallet, runIters, iterStep, iterStuckEnv, pollLoop, hs, hp]

/-- C1 (amended): for every submission whose status query returns metadata
with an error field, `check_transaction_status` returns false for that query
with no retry inside the call; but the replay loop treats false as
unconfirmed, so while every query keeps reporting the error the polling loop
never terminates — for any query budget — and the loop never advances past
that submission. -/
theorem c1_failed_status_polls_forever (e : String) (fuel : Nat) :
    check_transaction_status (.ok (some ⟨some ⟨some e⟩⟩)) = false ∧
    pollLoop (fun _ => .ok (some ⟨some ⟨some e⟩⟩)) fuel = none ∧
    process_wallet "dGVtcGxhdGU=" [1, 2, 3]
      (fun _ => ⟨sendOkEnv, fun _ => .ok (some ⟨some ⟨some e⟩⟩), 1 / 2⟩)
      fuel 1 = none := by
  have hc : ∀ q : Nat, check_transaction_status
      ((fun _ : Nat => RpcStatusResult.ok (some ⟨some ⟨some e⟩⟩)) q) = false :=
    fun _ => rfl
  have hp := pollAux_none_of_false _ hc fuel 0
  have hs : (send_modified_transaction sendOkEnv
      ⟨"dGVtcGxhdGU=", [1, 2, 3], none⟩).1 = .ok "SIG" := rfl
  refine ⟨rfl, hp, ?_⟩
  simp [process_wallet, runIters, iterStep, pollLoop, hs, hp]

/-- C2 (counterexample): the claim says the mutation always changes exactly
one byte.  On the valid template `txB` (two instructions, nonempty data on
instruction 1) with the in-range draw 7 — equal to the original last byte —
the mutated transaction is byte-for-byte identical to the original decode:
zero bytes change. -/
theorem c2_mutate_can_change_zero_bytes :
    txB.message.instructions[1]? = some ⟨3, [1], [7]⟩ ∧
    (7 : Nat) ≤ 255 ∧
    mutateTx txB 7 = .ok txB := by
  refine ⟨rfl, by norm_num, rfl⟩

/-- C2 (amended): for every valid template whose decode has an instruction
at index 1 with nonempty data, the mutation overwrites exactly one byte
position — the last byte of instruction 1's data — with the drawn value,
leaving the instruction list elsewhere, all other message fields and the
signature list identical; the result differs from the original decode iff
the drawn value differs from the original last byte (so at most one byte
changes, and exactly one iff the draw differs). -/
theorem c2_mutate_changes_only_last_byte (tx : Tx) (ins : Instruction) (r : Nat)
    (h1 : tx.message.instructions[1]? = some ins) (h2 : ins.data ≠ []) :
    mutateTx tx r = .ok { tx with message := { tx.message with
        instructions := tx.message.instructions.set 1
          { ins with data := ins.data.dropLast ++ [r] } } } ∧
    (∀ i, i ≠ 1 →
      (tx.message.instructions.set 1
        { ins with data := ins.data.dropLast ++ [r] })[i]? =
        tx.message.instructions[i]?) ∧
    (ins.data.dropLast ++ [r]).length = ins.data.length ∧
    (∀ j, j < ins.data.length - 1 →
      (ins.data.dropLast ++ [r])[j]? = ins.data[j]?) ∧
    (ins.data.dropLast ++ [r]).getLast? = some r ∧
    (ins.data.dropLast ++ [r] = ins.data ↔ ins.data.getLast? = some r) := by
  have hpos : 0 < ins.data.length := List.length_pos.mpr h2
  have hie : ins.data.isEmpty = false := by
    simpa [List.isEmpty_iff] using h2
  refine ⟨by simp [mutateTx, h1, hie], ?_, ?_, ?_, List.getLast?_concat _, ?_⟩
  · intro i hi
    exact List.getElem?_set_ne (Ne.symm hi)
  · simp [List.length_dropLast]
    omega
  · intro j hj
    rw [List.getElem?_append,
      if_pos (show j < ins.data.dropLast.length by
        rw [List.length_dropLast]; exact hj),
      List.dropLast_eq_take, List.getElem?_take, if_pos hj]
  · constructor
    · intro he
      rw [← he]
      exact List.getLast?_concat _
    · intro hl
      exact List.dropLast_append_getLast? r (Option.mem_def.mpr hl)

/-- C2 (witness): the amended mutation theorem evaluated on the concrete
template `txA` with draw 9: instruction 1's data [3, 7] becomes [3, 9]. -/
theorem c2_mutate_changes_only_last_byte_witness :
    mutateTx txA 9 = .ok { txA with message := { txA.message with
        instructions := txA.message.instructions.set 1
          { insA1 with data := insA1.data.dropLast ++ [9] } } } :=
  (c2_mutate_changes_only_last_byte txA insA1 9 rfl (by decide)).1

/-- C3: the replay loop performs exactly `repeat_count` iterations whenever
every iteration terminates (a submission that raises is caught, counts as
done, and is not retried); the outcome list has one entry per iteration, and
entry `i` is exactly iteration `i`'s own outcome, in strict sequence. -/
theorem c3_replay_loop_exact_count (dat : String) (key : List Nat)
    (env : Nat → IterEnv) (fuel : Nat) (rc : Int) (h0 : 0 ≤ rc)
    (hterm : ∀ i, i < rc.toNat → iterStep dat key (env i) fuel ≠ none) :
    ∃ l, process_wallet dat key env fuel rc = some l ∧
      (l.length : Int) = rc ∧
      ∀ i, i < rc.toNat → l[i]? = iterStep dat key (env i) fuel := by
  obtain ⟨l, hl, hlen, hget⟩ := runIters_sound dat key env fuel rc.toNat hterm
  exact ⟨l, hl, by rw [hlen]; exact Int.toNat_of_nonneg h0, hget⟩

/-- C3 (witness): a 3-repetition run whose middle iteration's submission
raises still performs exactly 3 iterations, the middle one logged as an
error, the surrounding ones once each. -/
theorem c3_replay_loop_exact_count_witness :
    ∃ l, process_wallet "dGVtcGxhdGU=" [1, 2, 3]
        (fun i => if i = 1 then iterFailSendEnv else iterOkEnv) 1 3 = some l ∧
      (l.length : Int) = 3 ∧
      ∀ i, i < (3 : Int).toNat →
        l[i]? = iterStep "dGVtcGxhdGU=" [1, 2, 3]
          ((fun i => if i = 1 then iterFailSendEnv else iterOkEnv) i) 1 :=
  c3_replay_loop_exact_count _ _ _ _ _ (by norm_num) (by decide)

/-- C4: on sustained RPC failure the blockhash fetch makes exactly 5
attempts, sleeping the fixed 0.5-unit delay between consecutive attempts
(4 sleeps), then reports exhaustion; the enclosing submission then raises
blockhash-unavailable, which the replay loop catches, so only the current
repetition aborts (its outcome is the logged error and the loop advances);
on first success at attempt K ≤ 5 the fetch returns that blockhash
immediately, after exactly K attempts and K - 1 sleeps. -/
theorem c4_blockhash_fetch_retry_policy
    (f s : Nat → Option Blockhash) (bh : Blockhash) (K : Nat)
    (hf : ∀ i, f i = none)
    (hK1 : 1 ≤ K) (hK5 : K ≤ 5) (hsK : s K = some bh)
    (hpre : ∀ j, 1 ≤ j → j < K → s j = none)
    (d : Option Tx) (r : Nat) (sr : Option SignatureId) (st : CallStore)
    (status : Nat → RpcStatusResult) (u : ℚ) (dat : String) (key : List Nat)
    (fuel : Nat) :
    get_latest_blockhash_with_retry f = (none, 5, 4) ∧
    blockhashRetryDelay = 1 / 2 ∧
    (send_modified_transaction ⟨f, d, r, sr⟩ st).1 = .error .blockhashUnavailable ∧
    iterStep dat key ⟨⟨f, d, r, sr⟩, status, u⟩ fuel =
      some (.errorLogged .blockhashUnavailable) ∧
    get_latest_blockhash_with_retry s = (some bh, K, K - 1) := by
  have hfail : fetchAux f 1 5 = (none, 5, 4) :=
    fetchAux_all_fail f hf 5 (by omega) 1
  have hsucc := fetchAux_success s bh 5 1 K hK1 (by omega)
    (fun j hj1 hj2 => hpre j hj1 hj2) hsK
  have he : K - 1 + 1 = K := by omega
  rw [he] at hsucc
  refine ⟨hfail, rfl, ?_, ?_, hsucc⟩
  · simp [send_modified_transaction, get_latest_blockhash_with_retry,
      blockhashRetryCeiling, hfail]
  · simp [iterStep, send_modified_transaction, get_latest_blockhash_with_retry,
      blockhashRetryCeiling, hfail]

/-- C4 (witness): the retry policy evaluated on an always-failing script and
on a script that first succeeds at attempt 3. -/
theorem c4_blockhash_fetch_retry_policy_witness :
    get_latest_blockhash_with_retry (fun _ => none) = (none, 5, 4) ∧
    blockhashRetryDelay = 1 / 2 ∧
    (send_modified_transaction ⟨fun _ => none, some txA, 9, some "SIG"⟩
      ⟨"dGVtcGxhdGU=", [1, 2, 3], none⟩).1 = .error .blockhashUnavailable ∧
    iterStep "dGVtcGxhdGU=" [1, 2, 3]
      ⟨⟨fun _ => none, some txA, 9, some "SIG"⟩, fun _ => successStatus, 1 / 2⟩ 1 =
      some (.errorLogged .blockhashUnavailable) ∧
    get_latest_blockhash_with_retry
      (fun i => if i = 3 then some "BH" else none) = (some "BH", 3, 2) :=
  c4_blockhash_fetch_retry_policy (fun _ => none)
    (fun i => if i = 3 then some "BH" else none) "BH" 3
    (fun _ => rfl) (by norm_num) (by norm_num) rfl
    (by intro j h1 h2; interval_cases j <;> rfl)
    (some txA) 9 (some "SIG") ⟨"dGVtcGxhdGU=", [1, 2, 3], none⟩
    (fun _ => successStatus) (1 / 2) "dGVtcGxhdGU=" [1, 2, 3] 1

/-- C5: for every template whose decode has fewer than 2 instructions or an
empty data buffer on instruction 1, the mutation fails with the
malformed-template error for every random draw and never partially mutates:
within the submission pipeline (with the blockhash and decode steps
succeeding) the call raises malformed-template, the template payload and
private key are unchanged, and the stored working copy is still the
unmutated decode. -/
theorem c5_mutate_malformed_template (tx : Tx) (r : Nat)
    (h : tx.message.instructions.length < 2 ∨
      ∃ ins, tx.message.instructions[1]? = some ins ∧ ins.data = []) :
    mutateTx tx r = .error .malformedTemplate ∧
    ∀ (env : SendEnv) (st : CallStore) (bh : Blockhash),
      env.decoded = some tx → env.blockhashAt 1 = some bh →
      (send_modified_transaction env st).1 = .error .malformedTemplate ∧
      ((send_modified_transaction env st).2.1).base64_data = st.base64_data ∧
      ((send_modified_transaction env st).2.1).private_key = st.private_key ∧
      ((send_modified_transaction env st).2.1).tx = some tx := by
  have hall : ∀ q : Nat, mutateTx tx q = .error .malformedTemplate := by
    intro q
    rcases h with h | ⟨ins, hins, hdata⟩
    · have hnone : tx.message.instructions[1]? = none := by
        rw [List.getElem?_eq_none_iff]; omega
      simp [mutateTx, hnone]
    · simp [mutateTx, hins, hdata]
  refine ⟨hall r, ?_⟩
  intro env st bh hdec hbh
  have hfetch : get_latest_blockhash_with_retry env.blockhashAt = (some bh, 1, 0) := by
    simp [get_latest_blockhash_with_retry, blockhashRetryCeiling, fetchAux, hbh]
  refine ⟨?_, ?_, ?_, ?_⟩ <;>
    simp [send_modified_transaction, hfetch, hdec, hall env.randomNumber]

/-- C5 (witness): the malformed-template theorem evaluated on the concrete
single-instruction template `txC` inside a pipeline whose RPC calls
succeed. -/
theorem c5_mutate_malformed_template_witness :
    mutateTx txC 9 = .error .malformedTemplate ∧
    (send_modified_transaction ⟨fun _ => some "BH", some txC, 9, some "SIG"⟩
      ⟨"dGVtcGxhdGU=", [1, 2, 3], none⟩).1 = .error .malformedTemplate ∧
    ((send_modified_transaction ⟨fun _ => some "BH", some txC, 9, some "SIG"⟩
      ⟨"dGVtcGxhdGU=", [1, 2, 3], none⟩).2.1).base64_data = "dGVtcGxhdGU=" ∧
    ((send_modified_transaction ⟨fun _ => some "BH", some txC, 9, some "SIG"⟩
      ⟨"dGVtcGxhdGU=", [1, 2, 3], none⟩).2.1).private_key = [1, 2, 3] ∧
    ((send_modified_transaction ⟨fun _ => some "BH", some txC, 9, some "SIG"⟩
      ⟨"dGVtcGxhdGU=", [1, 2, 3], none⟩).2.1).tx = some txC := by
  have h := c5_mutate_malformed_template txC 9 (Or.inl (by decide))
  have h2 := h.2 ⟨fun _ => some "BH", some txC, 9, some "SIG"⟩
    ⟨"dGVtcGxhdGU=", [1, 2, 3], none⟩ "BH" rfl rfl
  exact ⟨h.1, h2.1, h2.2.1, h2.2.2.1, h2.2.2.2⟩

/-- C6: on the scripted status sequence [NotFound, NotFound,
metadata-with-no-error] the poller performs exactly 2 retry delays (each the
fixed 5-unit wait) and confirms on the 3rd query, for any query budget of at
least 3; the iteration then finishes with the jitter `random.uniform(2, 5)`,
whose value always lies in [2, 5]. -/
theorem c6_confirmation_poll_scripted_sequence (u : ℚ) (h0 : 0 ≤ u) (h1 : u ≤ 1)
    (fuel : Nat) (hf : 3 ≤ fuel) (se : SendEnv) (sig : SignatureId)
    (dat : String) (key : List Nat)
    (hsend : (send_modified_transaction se ⟨dat, key, none⟩).1 = .ok sig) :
    pollLoop scriptNNS fuel = some 2 ∧
    check_transaction_status (scriptNNS 0) = false ∧
    check_transaction_status (scriptNNS 1) = false ∧
    check_transaction_status (scriptNNS 2) = true ∧
    confirmRetryDelay = 5 ∧
    2 ≤ uniform 2 5 u ∧ uniform 2 5 u ≤ 5 ∧
    iterStep dat key ⟨se, scriptNNS, u⟩ fuel =
      some (.confirmed 2 (uniform 2 5 u)) := by
  obtain ⟨k, hk⟩ : ∃ k, fuel = k + 3 := ⟨fuel - 3, by omega⟩
  subst hk
  have hp : pollLoop scriptNNS (k + 3) = some 2 := by
    show pollAux scriptNNS (k + 3) 0 = some 2
    rw [show k + 3 = (k + 2) + 1 from rfl, pollAux_false_step _ _ _ (by decide),
      show k + 2 = (k + 1) + 1 from rfl, pollAux_false_step _ _ _ (by decide),
      pollAux_true_step _ _ _ (by decide)]
  refine ⟨hp, by decide, by decide, by decide, rfl, ?_, ?_, ?_⟩
  · unfold uniform; linarith
  · unfold uniform; linarith
  · simp [iterStep, hsend, hp]

/-- C6 (witness): the scripted polling theorem evaluated with the draw
u = 1/2 (jitter 7/2) on the concrete successful submission. -/
theorem c6_confirmation_poll_scripted_sequence_witness :
    pollLoop scriptNNS 3 = some 2 ∧
    check_transaction_status (scriptNNS 0) = false ∧
    check_transaction_status (scriptNNS 1) = false ∧
    check_transaction_status (scriptNNS 2) = true ∧
    confirmRetryDelay = 5 ∧
    2 ≤ uniform 2 5 (1 / 2) ∧ uniform 2 5 (1 / 2) ≤ 5 ∧
    iterStep "dGVtcGxhdGU=" [1, 2, 3] ⟨sendOkEnv, scriptNNS, 1 / 2⟩ 3 =
      some (.confirmed 2 (uniform 2 5 (1 / 2))) :=
  c6_confirmation_poll_scripted_sequence (1 / 2) (by norm_num) (by norm_num)
    3 (by norm_num) sendOkEnv "SIG" "dGVtcGxhdGU=" [1, 2, 3] rfl

/-- C7: a malformed row anywhere in the dataset makes the whole load raise
the fatal dataset error — no partial task list is produced — and the main
flow then exits with status 1 before any wallet task is scheduled. -/
theorem c7_dataset_malformed_aborts (rows : List RawRow)
    (h : RawRow.malformed ∈ rows) (envs : Nat → Nat → IterEnv) (fuel : Nat) :
    read_data_from_csv rows = .error .datasetLoadError ∧
    main_flow rows envs fuel = .exitCode 1 := by
  have he := read_csv_error_of_malformed rows h
  exact ⟨he, by simp [main_flow, he]⟩

/-- C7 (witness): a two-row dataset whose second row is malformed. -/
theorem c7_dataset_malformed_aborts_witness :
    read_data_from_csv [RawRow.ok taskA, RawRow.malformed] =
      .error .datasetLoadError ∧
    main_flow [RawRow.ok taskA, RawRow.malformed]
      (fun _ _ => iterOkEnv) 1 = .exitCode 1 :=
  c7_dataset_malformed_aborts _ (by decide) _ _

/-- C8: one call of the submission pipeline never modifies its inputs: the
template payload and private key in the call's variables are unchanged on
every path, and both the returned result and the working decoded copy are
independent of whatever the variable store previously held — the mutation
only ever writes the fresh decoded copy of this call. -/
theorem c8_send_preserves_inputs (env : SendEnv) (st st2 : CallStore) :
    ((send_modified_transaction env st).2.1).base64_data = st.base64_data ∧
    ((send_modified_transaction env st).2.1).private_key = st.private_key ∧
    (send_modified_transaction env st).1 = (send_modified_transaction env st2).1 ∧
    (((send_modified_transaction env st).2.1).tx = st.tx ∨
      ∃ tx0, env.decoded = some tx0 ∧
        (((send_modified_transaction env st).2.1).tx = some tx0 ∨
          ∃ tx1 bh, mutateTx tx0 env.randomNumber = .ok tx1 ∧
            ((send_modified_transaction env st).2.1).tx =
              some { tx1 with message :=
                { tx1.message with recentBlockhash := bh } })) := by
  cases hbh : (get_latest_blockhash_with_retry env.blockhashAt).1 with
  | none => simp [send_modified_transaction, hbh]
  | some bh =>
    cases hd : env.decoded with
    | none => simp [send_modified_transaction, hbh, hd]
    | some tx0 =>
      cases hm : mutateTx tx0 env.randomNumber with
      | error e =>
        refine ⟨?_, ?_, ?_, Or.inr ⟨tx0, rfl, Or.inl ?_⟩⟩ <;>
          simp [send_modified_transaction, hbh, hd, hm]
      | ok tx1 =>
        cases hsr : env.sendRaw with
        | none =>
          refine ⟨?_, ?_, ?_, Or.inr ⟨tx0, rfl, Or.inr ⟨tx1, bh, hm, ?_⟩⟩⟩ <;>
            simp [send_modified_transaction, hbh, hd, hm, hsr]
        | some sig =>
          refine ⟨?_, ?_, ?_, Or.inr ⟨tx0, rfl, Or.inr ⟨tx1, bh, hm, ?_⟩⟩⟩ <;>
            simp [send_modified_transaction, hbh, hd, hm, hsr]

/-- C9 (counterexample): the claim says the scheduler spawns one concurrent
worker per account with no pooling bound besides the available concurrency.
Line 173 uses a bare thread pool, whose documented default worker ceiling is
min(32, cpu + 4): with 40 account tasks on a 64-CPU machine only 32 workers
run concurrently — fewer than the accounts and fewer than the available
concurrency. -/
theorem c9_scheduler_pool_is_bounded :
    defaultMaxWorkers 64 = 32 ∧
    concurrentWorkers 40 64 = 32 ∧
    concurrentWorkers 40 64 ≠ 40 ∧
    defaultMaxWorkers 64 < 64 := by decide

/-- C9 (amended): the scheduler submits one task per account to a thread
pool bounded at min(32, cpu + 4) concurrent workers, returns one result per
account after all loops finished, and each account's result is its own
wallet run, independent of the other accounts — so one account whose every
iteration fails never prevents the others from completing all their
repetitions. -/
theorem c9_scheduler_runs_all_isolated (tasks : List AccountTask)
    (envs : Nat → Nat → IterEnv) (fuel : Nat)
    (hterm : ∀ i, ∀ t : AccountTask, tasks[i]? = some t →
      ∀ j, j < t.repeat_count.toNat →
        iterStep t.data t.private_key (envs i j) fuel ≠ none) :
    (runAllTasks tasks envs fuel).length = tasks.length ∧
    (∀ i t, tasks[i]? = some t →
      (runAllTasks tasks envs fuel)[i]? =
        some (process_wallet t.data t.private_key (envs i) fuel t.repeat_count) ∧
      ∃ l, process_wallet t.data t.private_key (envs i) fuel t.repeat_count =
          some l ∧ l.length = t.repeat_count.toNat) ∧
    (∀ n cpu, concurrentWorkers n cpu ≤ defaultMaxWorkers cpu) := by
  refine ⟨runTasksFrom_length envs fuel tasks 0, ?_,
    fun n cpu => Nat.min_le_left _ _⟩
  intro i t ht
  have hg := runTasksFrom_get envs fuel tasks 0 i t ht
  rw [Nat.zero_add] at hg
  refine ⟨hg, ?_⟩
  obtain ⟨l, hl, hlen, _⟩ := runIters_sound t.data t.private_key (envs i) fuel
    t.repeat_count.toNat (hterm i t ht)
  exact ⟨l, hl, hlen⟩

/-- C9 (witness): three identical accounts of 2 repetitions each, the middle
account's submissions all failing: the scheduler still returns 3 results and
every account — the failing one included — completes both repetitions. -/
theorem c9_scheduler_runs_all_isolated_witness :
    (runAllTasks [taskA, taskA, taskA]
      (fun i _ => if i = 1 then iterFailSendEnv else iterOkEnv) 1).length = 3 ∧
    (∀ i t, ([taskA, taskA, taskA] : List AccountTask)[i]? = some t →
      (runAllTasks [taskA, taskA, taskA]
        (fun i _ => if i = 1 then iterFailSendEnv else iterOkEnv) 1)[i]? =
        some (process_wallet t.data t.private_key
          ((fun i _ => if i = 1 then iterFailSendEnv else iterOkEnv) i) 1
          t.repeat_count) ∧
      ∃ l, process_wallet t.data t.private_key
          ((fun i _ => if i = 1 then iterFailSendEnv else iterOkEnv) i) 1
          t.repeat_count = some l ∧ l.length = t.repeat_count.toNat) ∧
    (∀ n cpu, concurrentWorkers n cpu ≤ defaultMaxWorkers cpu) := by
  refine c9_scheduler_runs_all_isolated [taskA, taskA, taskA]
    (fun i _ => if i = 1 then iterFailSendEnv else iterOkEnv) 1 ?_
  intro i t ht j hj
  have hi : i < 3 := by
    by_contra hge
    rw [List.getElem?_eq_none_iff.mpr (by simpa using Nat.le_of_not_lt hge)] at ht
    exact Option.noConfusion ht
  interval_cases i <;>
    simp only [List.getElem?_cons_zero, List.getElem?_cons_succ,
      Option.some.injEq] at ht <;>
    subst ht <;> revert j <;> decide

/-- C10: for a zero or negative repeat count the replay loop performs zero
iterations — the outcome list is empty, so no blockhash fetch, submission or
status query happens — and the run returns normally. -/
theorem c10_replay_zero_iterations (dat : String) (key : List Nat)
    (env : Nat → IterEnv) (fuel : Nat) (rc : Int) (h : rc ≤ 0) :
    process_wallet dat key env fuel rc = some [] := by
  have h0 : rc.toNat = 0 := Int.toNat_eq_zero.mpr h
  simp [process_wallet, h0, runIters]

/-- C10 (witness): a repeat count of -3 yields an empty, error-free run. -/
theorem c10_replay_zero_iterations_witness :
    process_wallet "dGVtcGxhdGU=" [1, 2, 3] (fun _ => iterOkEnv) 1 (-3) =
      some [] :=
  c10_replay_zero_iterations _ _ _ _ _ (by norm_num)

end Niuniu
